import Mathlib

/-!
Verification of the Three-VFX vanilla `VFXParticles` wrapper.

A shallow embedding of `packages/vanilla-vfx/src/VFXParticles.ts`.
The wrapper owns a configuration record, an optional `VFXParticleSystem`
(from the `core-vfx` package, not part of the sources given here: the parts
of it that the claims depend on are modelled from the spec and marked as
such), an emission flag and accumulator, and a THREE `Group` into which the
system's render object is placed.

JavaScript conventions mapped to Lean:
* a key that may be absent from an object is an `Option`; `none` = absent;
* a value that may be `null`/`undefined` is a nested `Option`;
* numbers are `ℚ` (no claim depends on float rounding);
* colors are RGB triples in `ℚ` (hex strings decoded);
* the renderer and GPU are not modelled: observable effects (spawn calls,
  disposal, group membership) are recorded in the state or returned as
  event lists.
-/

namespace ThreeVFX

/-- RGB color as rationals (a decoded hex string such as `#ff0000`). -/
abbrev Color := ℚ × ℚ × ℚ

/-- 3-vector of rationals. -/
abbrev Vec3 := ℚ × ℚ × ℚ

/-- The decoded `#ffffff` default color used in the colorStart fallback. -/
def whiteColor : Color := (1, 1, 1)

/-- A turbulence configuration object: only `intensity` is inspected by
`VFXParticles.setProps` (line 160). -/
structure Turbulence where
  intensity : ℚ
deriving DecidableEq, Repr

/-- Derived boolean feature flags of a built system
(`system.features` in `core-vfx`, read by `setProps`). -/
structure Features where
  turbulence : Bool
  attractors : Bool
  collision : Bool
  needsRotation : Bool
  needsPerParticleColor : Bool
deriving DecidableEq, Repr

/-- One particle slot of the GPU buffer.
Modelled from the spec: the Particle Record of §3 (position, velocity,
age, lifetime); seed/rotation/size omitted, no claim inspects them. -/
structure Particle where
  age : ℚ
  lifetime : ℚ
  position : Vec3
  velocity : Vec3
deriving DecidableEq, Repr

/-- The live uniform store of a system.  `colorStart`/`colorEnd` are the
color-stop uniforms; every other uniform-level value is kept in a generic
string-keyed association list. -/
structure Uniforms where
  colorStart : List Color
  colorEnd : List Color
  other : List (String × ℚ)
deriving DecidableEq, Repr

/-- The `core-vfx` `VFXParticleSystem` as far as the wrapper observes it.
Modelled from the spec: the system owns the particle buffer with its
allocation cursor (§4.3), normalized `delay`/`emitCount`/`position`
(`normalizedProps`), the feature flag set (§3), the uniforms, a material
(its blending mode), and `initialized`/disposed status (§6).
`defaultLifetime` stands for the configured lifetime range that spawn
samples from (the sampling distribution itself is not claim-relevant). -/
structure Sys where
  maxParticles : ℕ
  initialized : Bool
  disposed : Bool
  features : Features
  uniforms : Uniforms
  particles : List Particle
  position : Vec3
  delay : ℚ
  emitCount : ℕ
  emittingCore : Bool
  material : Option ℕ
  nextIndex : ℕ
  defaultLifetime : ℚ
deriving DecidableEq, Repr

/-- The wrapper's `_config` record: the fields `setProps` inspects, plus a
generic association list for all remaining (uniform-level) keys.
`Option` fields may be `null`/absent in the JS object. -/
structure Config where
  maxParticles : ℕ
  lighting : ℕ
  appearance : ℕ
  shadow : Bool
  orientToDirection : Bool
  turbulence : Option Turbulence
  attractors : Option (List Unit)
  collision : Option Unit
  rotation : Option (ℚ × ℚ)
  rotationSpeed : Option (ℚ × ℚ)
  colorStart : Option (List Color)
  colorEnd : Option (List Color)
  geometryType : Option ℕ
  geometryArgs : Option ℕ
  position : Vec3
  delay : ℚ
  emitCount : ℕ
  autoStart : Bool
  blending : ℕ
  other : List (String × ℚ)
deriving DecidableEq, Repr

/-- A `newValues` argument to `setProps`: outer `Option` is key presence
(`'key' in newValues`), inner `Option` (where present) is the
`null`/`undefined` possibility of the value itself. -/
structure NewValues where
  maxParticles : Option ℕ
  lighting : Option ℕ
  appearance : Option ℕ
  shadow : Option Bool
  orientToDirection : Option Bool
  turbulence : Option (Option Turbulence)
  attractors : Option (Option (List Unit))
  collision : Option (Option Unit)
  rotation : Option (Option (ℚ × ℚ))
  rotationSpeed : Option (Option (ℚ × ℚ))
  colorStart : Option (Option (List Color))
  colorEnd : Option (Option (List Color))
  geometryType : Option ℕ
  geometryArgs : Option ℕ
  position : Option Vec3
  delay : Option (Option ℚ)
  emitCount : Option (Option ℕ)
  autoStart : Option Bool
  blending : Option ℕ
  other : List (String × ℚ)
deriving DecidableEq, Repr

/-- The empty update object, `setProps({})`. -/
def emptyNV : NewValues :=
  { maxParticles := none, lighting := none, appearance := none,
    shadow := none, orientToDirection := none, turbulence := none,
    attractors := none, collision := none, rotation := none,
    rotationSpeed := none, colorStart := none, colorEnd := none,
    geometryType := none, geometryArgs := none, position := none,
    delay := none, emitCount := none, autoStart := none, blending := none,
    other := [] }

/-- The full wrapper state of a `VFXParticles` instance:
`_config`, `_system`, `_emitting`, `_emitAccumulator`, `_debug`,
`_initialized`, plus the observable scene/debug side effects: whether the
system's render object is in `this.group` (`groupHas`), whether the debug
panel is open (`panel`), and how many times it has been rendered
(`panelRenders`). -/
structure VFXState where
  config : Config
  system : Option Sys
  emitting : Bool
  emitAccumulator : ℚ
  debug : Bool
  initialized : Bool
  groupHas : Bool
  panel : Bool
  panelRenders : ℕ
deriving DecidableEq, Repr

/-- The constructor `new VFXParticles(renderer, options)`:
no system yet, emitting defaults on, accumulator zero, not initialized. -/
def mkVFXParticles (debug : Bool) (cfg : Config) : VFXState :=
  { config := cfg, system := none, emitting := true, emitAccumulator := 0,
    debug := debug, initialized := false, groupHas := false,
    panel := false, panelRenders := 0 }

/-! ## Spec-modelled pieces of `core-vfx` -/

/-- Modelled from the spec: `core-vfx` `isNonDefaultRotation`.  A rotation
range is non-default exactly when it differs from the default `[0, 0]`
(§3: `needsRotation` is derived deterministically from configuration;
the component defaults are `rotation = [0,0]`, `rotationSpeed = [0,0]`). -/
def isNonDefaultRotation (r : ℚ × ℚ) : Bool :=
  !(r.1 == 0 && r.2 == 0)

/-- Replace the binding of `k` in an association list, or append it. -/
def setAssoc : List (String × ℚ) → String → ℚ → List (String × ℚ)
  | [], k, v => [(k, v)]
  | (k1, v1) :: rest, k, v =>
      if k1 = k then (k, v) :: rest else (k1, v1) :: setAssoc rest k v

/-- Object-spread merge of generic uniform keys: keys of `upd` override. -/
def mergeOther (base upd : List (String × ℚ)) : List (String × ℚ) :=
  upd.foldl (fun acc kv => setAssoc acc kv.1 kv.2) base

/-- Modelled from the spec: `core-vfx` `updateUniformsPartial` (the
partial-update entry point, §4.6 uniform-level path).  It patches only the
uniforms named in `nv`; per §4.2 color handling, a `null` `colorEnd` sets
the colorEnd uniforms to mirror the (just-updated) colorStart uniforms so
the life-interpolated color holds steady. -/
def updateUniformsSubset (u : Uniforms) (nv : NewValues) : Uniforms :=
  let u1 := match nv.colorStart with
    | some (some cs) => { u with colorStart := cs }
    | _ => u
  let u2 := match nv.colorEnd with
    | some (some ce) => { u1 with colorEnd := ce }
    | some none => { u1 with colorEnd := u1.colorStart }
    | none => u1
  { u2 with other := mergeOther u2.other nv.other }

/-- A freshly spawned particle slot: age 0, at the spawn origin.
Modelled from the spec (§4.4); the sampled velocity/size/seed are not
claim-relevant and are written as zero velocity. -/
def freshParticle (origin : Vec3) (lifetime : ℚ) : Particle :=
  { age := 0, lifetime := lifetime, position := origin, velocity := (0, 0, 0) }

/-- Modelled from the spec: `VFXParticleSystem.spawn` (§4.3/§4.4).
Overwrites `count` slots starting at the allocation cursor (wrapping mod
capacity) with fresh particles and advances the cursor by `count mod N`. -/
def Sys.spawnSys (s : Sys) (origin : Vec3) (count : ℕ) (ovLifetime : Option ℚ) : Sys :=
  let lt := ovLifetime.getD s.defaultLifetime
  let idxs := (List.range count).map (fun i => (s.nextIndex + i) % s.maxParticles)
  { s with
    particles := idxs.foldl (fun ps i => ps.set i (freshParticle origin lt)) s.particles,
    nextIndex := if s.maxParticles = 0 then 0 else (s.nextIndex + count) % s.maxParticles }

/-- Modelled from the spec: one Update-Kernel step (§4.5) restricted to the
claim-relevant observables: every slot integrates
`position += velocity * deltaTime` and advances `age += deltaTime`
(forces/curves act only on velocity/visuals and are not inspected here). -/
def Sys.kernelStep (s : Sys) (delta : ℚ) : Sys :=
  { s with particles := s.particles.map (fun p =>
      { p with
        position := (p.position.1 + p.velocity.1 * delta,
                     p.position.2.1 + p.velocity.2.1 * delta,
                     p.position.2.2 + p.velocity.2.2 * delta),
        age := p.age + delta }) }

/-- Modelled from the spec: `system.start()` / `system.stop()` toggle the
core emission flag (§5 cancellation). -/
def Sys.startSys (s : Sys) : Sys := { s with emittingCore := true }

/-- See `Sys.startSys`. -/
def Sys.stopSys (s : Sys) : Sys := { s with emittingCore := false }

/-- Modelled from the spec: `system.init()` completes and reports
`initialized` true (§6 outbound state). -/
def Sys.initSys (s : Sys) : Sys := { s with initialized := true }

/-- Releasing the GPU resources of this system, `system.dispose()`. -/
def Sys.markDisposed (s : Sys) : Sys := { s with disposed := true }

/-! ## `setProps` classification (VFXParticles.ts lines 150-230) -/

/-- JS `newValues.turbulence !== null && (newValues.turbulence?.intensity ?? 0) > 0`
(line 158-160). -/
def hasTurbulenceVal : Option Turbulence → Bool
  | none => false
  | some t => decide (0 < t.intensity)

/-- The turbulence feature-flag flip test (lines 157-166): gated on key
presence, compares the new flag against `system?.features.turbulence ?? false`. -/
def turbFlip (ofeat : Option Features) (nv : NewValues) : Bool :=
  match nv.turbulence with
  | some v => hasTurbulenceVal v != (ofeat.map Features.turbulence).getD false
  | none => false

/-- The attractors flip test (lines 167-175):
`newValues.attractors !== null && newValues.attractors?.length > 0`. -/
def attrFlip (ofeat : Option Features) (nv : NewValues) : Bool :=
  match nv.attractors with
  | some v =>
      (match v with
       | some l => decide (0 < l.length)
       | none => false) != (ofeat.map Features.attractors).getD false
  | none => false

/-- The collision flip test (lines 176-184):
`newValues.collision !== null && newValues.collision !== undefined`. -/
def collFlip (ofeat : Option Features) (nv : NewValues) : Bool :=
  match nv.collision with
  | some v => v.isSome != (ofeat.map Features.collision).getD false
  | none => false

/-- The rotation flip test (lines 185-195): computed from the merged
config (`this._config.rotation ?? [0,0]` etc.), gated on either rotation
key being present. -/
def rotFlip (cfg : Config) (ofeat : Option Features) (nv : NewValues) : Bool :=
  (nv.rotation.isSome || nv.rotationSpeed.isSome) &&
    ((isNonDefaultRotation (cfg.rotation.getD (0, 0)) ||
      isNonDefaultRotation (cfg.rotationSpeed.getD (0, 0))) !=
     (ofeat.map Features.needsRotation).getD false)

/-- The per-particle-color flip test (lines 196-207): computed from the
merged config (`this._config.colorStart?.length ?? 1`,
`this._config.colorEnd !== null && !== undefined`). -/
def colorFlip (cfg : Config) (ofeat : Option Features) (nv : NewValues) : Bool :=
  (nv.colorStart.isSome || nv.colorEnd.isSome) &&
    ((decide (1 < (cfg.colorStart.map List.length).getD 1) || cfg.colorEnd.isSome) !=
     (ofeat.map Features.needsPerParticleColor).getD false)

/-- JS `STRUCTURAL_KEYS.some((key) => key in newValues)` (lines 14-20, 154). -/
def structuralKeyPresent (nv : NewValues) : Bool :=
  nv.maxParticles.isSome || nv.lighting.isSome || nv.appearance.isSome ||
    nv.shadow.isSome || nv.orientToDirection.isSome

/-- JS `'geometryType' in newValues || 'geometryArgs' in newValues` (line 210). -/
def geometryKeyPresent (nv : NewValues) : Bool :=
  nv.geometryType.isSome || nv.geometryArgs.isSome

/-- The disjunction "some derived feature flag flips value", as the claim
reads it: the five flip conditions of `setProps`, evaluated on the merged
config and the current system features. -/
def featureFlagFlips (cfg : Config) (ofeat : Option Features) (nv : NewValues) : Bool :=
  turbFlip ofeat nv || attrFlip ofeat nv || collFlip ofeat nv ||
    rotFlip cfg ofeat nv || colorFlip cfg ofeat nv

/-- What `setProps` decides to do after merging the config. -/
inductive PropsAction
  | recreate
  | uniform
deriving DecidableEq, Repr

/-- The control flow of `setProps` (lines 154-229) after the config merge:
each flip check returns early into `_recreateSystem`; the geometry-key
branch recreates (asynchronously); then the `STRUCTURAL_KEYS` presence
check; otherwise the uniform-level path.  `cfg` is the already-merged
config, `ofeat` is `this._system?.features`. -/
def setPropsAction (cfg : Config) (ofeat : Option Features) (nv : NewValues) : PropsAction :=
  if turbFlip ofeat nv then .recreate
  else if attrFlip ofeat nv then .recreate
  else if collFlip ofeat nv then .recreate
  else if rotFlip cfg ofeat nv then .recreate
  else if colorFlip cfg ofeat nv then .recreate
  else if geometryKeyPresent nv then .recreate
  else if structuralKeyPresent nv then .recreate
  else .uniform

/-- The config merge `this._config = { ...this._config, ...newValues }` (line 151). -/
def mergeConfig (c : Config) (nv : NewValues) : Config :=
  { maxParticles := nv.maxParticles.getD c.maxParticles,
    lighting := nv.lighting.getD c.lighting,
    appearance := nv.appearance.getD c.appearance,
    shadow := nv.shadow.getD c.shadow,
    orientToDirection := nv.orientToDirection.getD c.orientToDirection,
    turbulence := nv.turbulence.getD c.turbulence,
    attractors := nv.attractors.getD c.attractors,
    collision := nv.collision.getD c.collision,
    rotation := nv.rotation.getD c.rotation,
    rotationSpeed := nv.rotationSpeed.getD c.rotationSpeed,
    colorStart := nv.colorStart.getD c.colorStart,
    colorEnd := nv.colorEnd.getD c.colorEnd,
    geometryType := (nv.geometryType.map some).getD c.geometryType,
    geometryArgs := (nv.geometryArgs.map some).getD c.geometryArgs,
    position := nv.position.getD c.position,
    delay := (nv.delay.map (fun d => d.getD c.delay)).getD c.delay,
    emitCount := (nv.emitCount.map (fun e => e.getD c.emitCount)).getD c.emitCount,
    autoStart := nv.autoStart.getD c.autoStart,
    blending := nv.blending.getD c.blending,
    other := mergeOther c.other nv.other }

/-- The derived feature flags that a consistent system built from `c`
carries (§3 Feature Flag Set). -/
def featuresOfConfig (c : Config) : Features :=
  { turbulence := hasTurbulenceVal c.turbulence,
    attractors := (c.attractors.map (fun l => decide (0 < l.length))).getD false,
    collision := c.collision.isSome,
    needsRotation := isNonDefaultRotation (c.rotation.getD (0, 0)) ||
      isNonDefaultRotation (c.rotationSpeed.getD (0, 0)),
    needsPerParticleColor :=
      decide (1 < (c.colorStart.map List.length).getD 1) || c.colorEnd.isSome }

/-! ## Wrapper operations (VFXParticles.ts) -/

/-- Method `_recreateSystem` (lines 232-245): FIRST removes and disposes the
current system, THEN constructs and initializes the replacement.  `ok`
models whether construction/`init()` of the new system succeeds; on
failure the assignment `this._system = s`, the `group.add`, and the
accumulator reset never run, leaving the instance pointing at the
already-disposed old system with nothing in the group. -/
def recreateSystem (ok : Bool) (ns : Sys) (st : VFXState) : VFXState :=
  let st1 := match st.system with
    | some s => { st with groupHas := false, system := some s.markDisposed }
    | none => st
  if ok then
    { st1 with system := some ns.initSys, groupHas := true, emitAccumulator := 0 }
  else st1

/-- The color-key rewriting at the top of `_applyUniformUpdates`
(lines 251-261): when colorStart is updated (truthy) and the merged config
has no colorEnd, a `colorEnd: null` entry is added so the core mirrors the
colorEnd uniforms; when a falsy colorEnd is updated, the colorStart
fallback (`newValues.colorStart ?? config.colorStart ?? ['#ffffff']`) is
attached. -/
def rewriteColorKeys (c : Config) (nv : NewValues) : NewValues :=
  let nv1 := match nv.colorStart with
    | some (some _) =>
        (match c.colorEnd with
         | none => { nv with colorEnd := some none }
         | some _ => nv)
    | _ => nv
  match nv1.colorEnd with
  | some none =>
      { nv1 with colorStart := some (some
          (match nv1.colorStart with
           | some (some cs) => cs
           | _ => c.colorStart.getD [whiteColor])) }
  | _ => nv1

/-- The system-side effects of `_applyUniformUpdates` (lines 263-283):
patch the uniforms, then the non-uniform updates (position, delay,
emitCount, autoStart, material blending).  Returns the updated system and
the (possibly updated) `_emitting` flag.  Note the particle buffer is
never touched.  (The blending guard is the conjunction
`this._system.material && newValues.blending !== undefined`; the operands
are pure so their order is immaterial.) -/
def applySysUpdates (emitting0 : Bool) (s : Sys) (nv : NewValues) : Sys × Bool :=
  let s1 := { s with uniforms := updateUniformsSubset s.uniforms nv }
  let s2 := match nv.position with
    | some p => { s1 with position := p }
    | none => s1
  let s3 := match nv.delay with
    | some d => { s2 with delay := d.getD 0 }
    | none => s2
  let s4 := match nv.emitCount with
    | some e => { s3 with emitCount := e.getD 1 }
    | none => s3
  let p5 := match nv.autoStart with
    | some b => (if b then s4.startSys else s4.stopSys, b)
    | none => (s4, emitting0)
  let s6 := match nv.blending, p5.1.material with
    | some b, some _ => { p5.1 with material := some b }
    | _, _ => p5.1
  (s6, p5.2)

/-- Method `_applyUniformUpdates` (lines 248-284): no-op without a system;
otherwise the color-key rewrite followed by the uniform and non-uniform
updates. -/
def applyUniformUpdates (st : VFXState) (nv : NewValues) : VFXState :=
  match st.system with
  | none => st
  | some s =>
    let p := applySysUpdates st.emitting s (rewriteColorKeys st.config nv)
    { st with system := some p.1, emitting := p.2 }

/-- Method `setProps` (lines 150-230): merge the config, classify, then either
recreate (structural key / feature-flag flip / geometry key) or apply a
uniform-level update.  `ok`/`ns` parameterize the recreation outcome as in
`recreateSystem`. -/
def setProps (ok : Bool) (ns : Sys) (st : VFXState) (nv : NewValues) : VFXState :=
  match setPropsAction (mergeConfig st.config nv) (st.system.map Sys.features) nv with
  | .recreate => recreateSystem ok ns { st with config := mergeConfig st.config nv }
  | .uniform => applyUniformUpdates { st with config := mergeConfig st.config nv } nv

/-- Fill the component defaults into absent option fields, as the debug
`DEFAULT_VALUES` spread does (`{ ...DEFAULT_VALUES, ...this._config }`,
line 66).  Modelled from the spec with the default values of the React
component (rotation `[0,0]`, rotationSpeed `[0,0]`, colorStart
`['#ffffff']`; the nullable features default to null already). -/
def fillDefaults (c : Config) : Config :=
  { c with
    rotation := some (c.rotation.getD (0, 0)),
    rotationSpeed := some (c.rotationSpeed.getD (0, 0)),
    colorStart := some (c.colorStart.getD [whiteColor]) }

/-- Method `init()` (lines 61-78): returns immediately when already initialized;
otherwise (in debug mode) merges the panel defaults, recreates the system,
sets `_initialized`, and (in debug mode) renders the debug panel.  If the
recreation fails (`ok = false`) the `await` throws and nothing after it
runs. -/
def init (ok : Bool) (ns : Sys) (st : VFXState) : VFXState :=
  if st.initialized then st
  else
    let st0 := if st.debug then { st with config := fillDefaults st.config } else st
    let st1 := recreateSystem ok ns st0
    if ok then
      let st2 := { st1 with initialized := true }
      if st.debug then { st2 with panel := true, panelRenders := st2.panelRenders + 1 }
      else st2
    else st1

/-- A spawn call observed by the system, for event traces. -/
structure SpawnEvent where
  origin : Vec3
  count : ℕ
deriving DecidableEq, Repr

/-- Method `update(delta)` (lines 80-101): no-op unless a system exists and is
initialized; while `_emitting`, auto-emission spawns `emitCount` particles
— immediately when `delay` is falsy, otherwise once when the accumulator
reaches `delay` (subtracting `delay`, carrying the remainder); finally one
kernel step advances the whole buffer.  Returns the spawn events issued. -/
def update (st : VFXState) (delta : ℚ) : VFXState × List SpawnEvent :=
  match st.system with
  | none => (st, [])
  | some s =>
    if s.initialized = false then (st, [])
    else
      let p1 : VFXState × List SpawnEvent :=
        if st.emitting then
          if s.delay = 0 then
            ({ st with system := some (s.spawnSys s.position s.emitCount none) },
             [{ origin := s.position, count := s.emitCount }])
          else
            let acc := st.emitAccumulator + delta
            if s.delay ≤ acc then
              ({ st with emitAccumulator := acc - s.delay,
                         system := some (s.spawnSys s.position s.emitCount none) },
               [{ origin := s.position, count := s.emitCount }])
            else ({ st with emitAccumulator := acc }, [])
        else (st, [])
      let st2 := match p1.1.system with
        | some s1 => { p1.1 with system := some (s1.kernelStep delta) }
        | none => p1.1
      (st2, p1.2)

/-- Method `dispose()` (lines 103-115): if a system exists, remove its render
object from the group and release it; destroy the debug panel in debug
mode; clear `_initialized`.  The returned Bool reports whether any GPU
resource was actually released by this call. -/
def dispose (st : VFXState) : VFXState × Bool :=
  match st.system with
  | some _ =>
    let st1 := { st with groupHas := false, system := none, initialized := false }
    ((if st.debug then { st1 with panel := false } else st1), true)
  | none =>
    let st1 := { st with initialized := false }
    ((if st.debug then { st1 with panel := false } else st1), false)

/-- Method `spawn(x, y, z, count?, overrides?)` (lines 117-132): no-op without a
system; otherwise forwards to the core spawn with
`count ?? normalizedProps.emitCount`. -/
def spawn (st : VFXState) (x y z : ℚ) (count : Option ℕ) (ovLifetime : Option ℚ) :
    VFXState :=
  match st.system with
  | none => st
  | some s =>
    { st with system := some (s.spawnSys (x, y, z) (count.getD s.emitCount) ovLifetime) }

/-- Method `start()` (lines 134-138). -/
def start (st : VFXState) : VFXState :=
  let st1 := { st with emitting := true, emitAccumulator := 0 }
  match st.system with
  | some s => { st1 with system := some s.startSys }
  | none => st1

/-- Method `stop()` (lines 140-143). -/
def stop (st : VFXState) : VFXState :=
  let st1 := { st with emitting := false }
  match st.system with
  | some s => { st1 with system := some s.stopSys }
  | none => st1

/-- Iterate `update` over a list of frame deltas, concatenating the spawn
events each frame issued. -/
def runUpdates : VFXState → List ℚ → VFXState × List SpawnEvent
  | st, [] => (st, [])
  | st, d :: ds =>
    let p := update st d
    let q := runUpdates p.1 ds
    (q.1, p.2 ++ q.2)

/-- The particle buffer the wrapper's system currently holds. -/
def sysParticles (st : VFXState) : List Particle :=
  (st.system.map Sys.particles).getD []

/-- The ages of the particles in the wrapper's system. -/
def sysAges (st : VFXState) : List ℚ :=
  (sysParticles st).map Particle.age

/-- The life-interpolated particle color of the Update Kernel.
Modelled from the spec (§4.5/§4.2): a linear interpolation from the
particle's start stop to its end stop by normalized age `t`. -/
def interpColor (cs ce : Color) (t : ℚ) : Color :=
  (cs.1 + (ce.1 - cs.1) * t,
   cs.2.1 + (ce.2.1 - cs.2.1) * t,
   cs.2.2 + (ce.2.2 - cs.2.2) * t)

/-! ## Concrete fixtures (for witnesses and counterexamples) -/

/-- A small baseline configuration: 100 particles, one red color stop, no
colorEnd, no optional forces, default rotation. -/
def cfg0 : Config :=
  { maxParticles := 100, lighting := 0, appearance := 0, shadow := false,
    orientToDirection := false, turbulence := none, attractors := none,
    collision := none, rotation := some (0, 0), rotationSpeed := some (0, 0),
    colorStart := some [(1, 0, 0)], colorEnd := none, geometryType := none,
    geometryArgs := none, position := (0, 0, 0), delay := 0, emitCount := 1,
    autoStart := true, blending := 0, other := [] }

/-- One mid-life particle. -/
def p0 : Particle :=
  { age := 1/2, lifetime := 2, position := (1, 2, 3), velocity := (0, 1, 0) }

/-- A running system consistent with `cfg0`. -/
def s0 : Sys :=
  { maxParticles := 100, initialized := true, disposed := false,
    features := featuresOfConfig cfg0,
    uniforms := { colorStart := [(1, 0, 0)], colorEnd := [(1, 0, 0)], other := [] },
    particles := [p0], position := (0, 0, 0), delay := 0, emitCount := 1,
    emittingCore := true, material := some 0, nextIndex := 1,
    defaultLifetime := 2 }

/-- An initialized, emitting wrapper holding `s0`, render object in the
group. -/
def st0 : VFXState :=
  { config := cfg0, system := some s0, emitting := true, emitAccumulator := 0,
    debug := false, initialized := true, groupHas := true, panel := false,
    panelRenders := 0 }

/-- A freshly constructed replacement system (pre-`init`). -/
def ns0 : Sys :=
  { s0 with particles := [], initialized := false, nextIndex := 0 }

/-- Fixture `s0` with core `initialized` still false (as the React wrapper forces
after a capacity change). -/
def s0uninit : Sys := { s0 with initialized := false }

/-- A wrapper whose system exists but reports uninitialized. -/
def stUninit : VFXState := { st0 with system := some s0uninit }

/-- A `newValues` object that re-sends every value of `cfg0` unchanged
(what reapplying the same configuration through the panel produces). -/
def nvFull : NewValues :=
  { maxParticles := some 100, lighting := some 0, appearance := some 0,
    shadow := some false, orientToDirection := some false,
    turbulence := some none, attractors := some none, collision := some none,
    rotation := some (some (0, 0)), rotationSpeed := some (some (0, 0)),
    colorStart := some (some [(1, 0, 0)]), colorEnd := some none,
    geometryType := none, geometryArgs := none, position := some (0, 0, 0),
    delay := some (some 0), emitCount := some (some 1),
    autoStart := some true, blending := some 0, other := [] }

/-- A structural update: a new `maxParticles` value. -/
def nvStruct : NewValues := { emptyNV with maxParticles := some 200 }

/-- The value-identical resend `nvFull` with the structural keys removed. -/
def nvSame : NewValues :=
  { nvFull with
    maxParticles := none, lighting := none, appearance := none,
    shadow := none, orientToDirection := none }

/-- A uniform-level update: a gravity component only. -/
def nvUniform : NewValues := { emptyNV with other := [("gravityY", -1)] }

/-- A colorStart-only update (new stop `#00ff00`). -/
def nvColor : NewValues := { emptyNV with colorStart := some (some [(0, 1, 0)]) }

/-! ## Theorems -/

/-- C7: `dispose()` is idempotent.  A second `dispose()` on an
already-disposed instance leaves the state exactly as it was and releases
no resource (the returned flag is false), and after a `dispose()` the
instance holds no system and reports uninitialized. -/
theorem dispose_idempotent (st : VFXState) :
    (dispose (dispose st).1).1 = (dispose st).1 ∧
    (dispose (dispose st).1).2 = false ∧
    (dispose st).1.system = none ∧
    (dispose st).1.initialized = false := by
  obtain ⟨c, sys, em, acc, dbg, ini, gh, pn, pr⟩ := st
  cases sys <;> cases dbg <;> simp [dispose]

/-- C5: before `init()` has completed the internal system is absent (as in
the freshly constructed state), and then `spawn` and `update` are no-ops
returning the state unchanged with no spawn events; `update` is also a
no-op when a system exists but is not yet initialized. -/
theorem spawn_update_before_init_noop (d : Bool) (cfg : Config)
    (st stu : VFXState) (s : Sys) (x y z delta : ℚ)
    (count : Option ℕ) (ov : Option ℚ)
    (hnone : st.system = none)
    (hsome : stu.system = some s) (huninit : s.initialized = false) :
    spawn st x y z count ov = st ∧
    update st delta = (st, []) ∧
    update stu delta = (stu, []) ∧
    (mkVFXParticles d cfg).system = none := by
  refine ⟨?_, ?_, ?_, rfl⟩
  · simp [spawn, hnone]
  · simp [update, hnone]
  · simp [update, hsome, huninit]

/-- Witness for C5 at the constructed state and at a present-but-
uninitialized system. -/
theorem spawn_update_before_init_noop_witness :
    spawn (mkVFXParticles false cfg0) 1 2 3 none none = mkVFXParticles false cfg0 ∧
    update (mkVFXParticles false cfg0) (1/60) = (mkVFXParticles false cfg0, []) ∧
    update stUninit (1/60) = (stUninit, []) ∧
    (mkVFXParticles false cfg0).system = none :=
  spawn_update_before_init_noop false cfg0 (mkVFXParticles false cfg0)
    stUninit s0uninit 1 2 3 (1/60) none none rfl rfl rfl

/-- C2 counterexample: `_recreateSystem` disposes the running system and
removes its render object from the group BEFORE building the replacement,
so at this concrete live state a failed recreation leaves the instance
holding the already-disposed old system and an empty group — the old
system is neither intact nor rendering. -/
theorem recreate_failure_cex :
    s0.disposed = false ∧ st0.groupHas = true ∧ st0.system = some s0 ∧
    (recreateSystem false ns0 st0).system = some s0.markDisposed ∧
    s0.markDisposed.disposed = true ∧
    (recreateSystem false ns0 st0).groupHas = false := by
  refine ⟨rfl, rfl, rfl, ?_, rfl, ?_⟩ <;> simp [recreateSystem, st0, Sys.markDisposed]

/-- C2 amended: a structural recreation first disposes the current system
and removes its render object from the group; on failure the instance is
left holding the already-disposed previous system with nothing in the
group (the previous system does NOT remain intact and rendering); on
success the freshly initialized replacement is installed into the group
and the emission accumulator is reset. -/
theorem recreate_dispose_first (ns : Sys) (st : VFXState) (s : Sys)
    (h : st.system = some s) :
    recreateSystem false ns st =
      { st with groupHas := false, system := some s.markDisposed } ∧
    (recreateSystem true ns st).system = some ns.initSys ∧
    (recreateSystem true ns st).groupHas = true ∧
    (recreateSystem true ns st).emitAccumulator = 0 := by
  refine ⟨?_, ?_, ?_, ?_⟩ <;> simp [recreateSystem, h]

/-- Witness for C2's amended statement at the live state `st0`. -/
theorem recreate_dispose_first_witness :
    recreateSystem false ns0 st0 =
      { st0 with groupHas := false, system := some s0.markDisposed } ∧
    (recreateSystem true ns0 st0).system = some ns0.initSys ∧
    (recreateSystem true ns0 st0).groupHas = true ∧
    (recreateSystem true ns0 st0).emitAccumulator = 0 :=
  recreate_dispose_first ns0 st0 s0 rfl

/-- C9: `init()` initializes at most once — on an already-initialized
instance it is the identity (no recreation, no group re-add, no debug
panel re-render), while after a `dispose()` the instance reports
uninitialized and `init()` builds a system again. -/
theorem init_at_most_once (ok : Bool) (ns : Sys) (st : VFXState)
    (h : st.initialized = true) :
    init ok ns st = st ∧
    (dispose st).1.initialized = false ∧
    (init true ns (dispose st).1).initialized = true ∧
    ((init true ns (dispose st).1).system).isSome = true := by
  refine ⟨by simp [init, h], ?_, ?_, ?_⟩ <;>
    · obtain ⟨c, sys, em, acc, dbg, ini, gh, pn, pr⟩ := st
      cases sys <;> cases dbg <;> simp [init, dispose, recreateSystem]

/-- Witness for C9 at the initialized state `st0`. -/
theorem init_at_most_once_witness :
    init true ns0 st0 = st0 ∧
    (dispose st0).1.initialized = false ∧
    (init true ns0 (dispose st0).1).initialized = true ∧
    ((init true ns0 (dispose st0).1).system).isSome = true :=
  init_at_most_once true ns0 st0 rfl

/-- C10: auto-emission pacing of `update(delta)` while emitting: with a
falsy (zero) delay it spawns `emitCount` particles exactly once per call
and leaves the accumulator alone; with a nonzero delay it accumulates
`delta` and spawns exactly once when the accumulator reaches the delay,
subtracting the delay (carrying the remainder); in every case at most one
spawn happens per call. -/
theorem auto_emission_pacing (st : VFXState) (s : Sys) (delta : ℚ)
    (hs : st.system = some s) (hi : s.initialized = true)
    (he : st.emitting = true) :
    ((update st delta).2 =
      if s.delay = 0 then [{ origin := s.position, count := s.emitCount }]
      else if s.delay ≤ st.emitAccumulator + delta then
        [{ origin := s.position, count := s.emitCount }]
      else []) ∧
    ((update st delta).1.emitAccumulator =
      if s.delay = 0 then st.emitAccumulator
      else if s.delay ≤ st.emitAccumulator + delta then
        st.emitAccumulator + delta - s.delay
      else st.emitAccumulator + delta) ∧
    (update st delta).2.length ≤ 1 := by
  simp only [update, hs, hi, he]
  split_ifs <;> simp_all

/-- Witness for C10 at `st0` (zero delay): one spawn of one particle. -/
theorem auto_emission_pacing_witness :
    ((update st0 (1/60)).2 =
      if s0.delay = 0 then [{ origin := s0.position, count := s0.emitCount }]
      else if s0.delay ≤ st0.emitAccumulator + 1/60 then
        [{ origin := s0.position, count := s0.emitCount }]
      else []) ∧
    ((update st0 (1/60)).1.emitAccumulator =
      if s0.delay = 0 then st0.emitAccumulator
      else if s0.delay ≤ st0.emitAccumulator + 1/60 then
        st0.emitAccumulator + 1/60 - s0.delay
      else st0.emitAccumulator + 1/60) ∧
    (update st0 (1/60)).2.length ≤ 1 :=
  auto_emission_pacing st0 s0 (1/60) rfl rfl rfl

/-- Helper: with emission stopped, `update` issues no spawn event and only
runs the kernel step over the existing buffer. -/
theorem update_not_emitting (st : VFXState) (s : Sys) (delta : ℚ)
    (hs : st.system = some s) (hi : s.initialized = true)
    (he : st.emitting = false) :
    update st delta = ({ st with system := some (s.kernelStep delta) }, []) := by
  simp [update, hs, hi, he]

/-- Helper: iterating `update` with emission stopped spawns nothing,
keeps emission stopped, and advances every particle's age by the summed
deltas. -/
theorem runUpdates_not_emitting (ds : List ℚ) :
    ∀ (st : VFXState) (s : Sys), st.system = some s → s.initialized = true →
      st.emitting = false →
      (runUpdates st ds).2 = [] ∧
      (runUpdates st ds).1.emitting = false ∧
      sysAges (runUpdates st ds).1 = (sysAges st).map (fun a => a + ds.sum) := by
  induction ds with
  | nil =>
    intro st s hs hi he
    refine ⟨rfl, he, ?_⟩
    simp [runUpdates]
  | cons d ds ih =>
    intro st s hs hi he
    have hu := update_not_emitting st s d hs hi he
    have hrec := ih { st with system := some (s.kernelStep d) } (s.kernelStep d)
      rfl hi he
    refine ⟨?_, ?_, ?_⟩
    · simp [runUpdates, hu, hrec.1]
    · simpa [runUpdates, hu] using hrec.2.1
    · have h3 := hrec.2.2
      simp only [runUpdates, hu]
      rw [h3]
      simp [sysAges, sysParticles, Sys.kernelStep, hs, List.map_map,
        Function.comp, add_assoc]

/-- C6: after `stop()` and until the next `start()`, no `update(delta)`
spawns particles (no spawn event is issued over any sequence of frames and
the emitting flag stays false), while each update still advances the
existing particles, whose ages grow by the summed deltas so live particles
complete their natural lifetime. -/
theorem stop_halts_emission_updates_continue (st : VFXState) (s : Sys)
    (ds : List ℚ) (hs : st.system = some s) (hi : s.initialized = true) :
    (stop st).emitting = false ∧
    (runUpdates (stop st) ds).2 = [] ∧
    (runUpdates (stop st) ds).1.emitting = false ∧
    sysAges (runUpdates (stop st) ds).1 =
      (sysAges st).map (fun a => a + ds.sum) := by
  have hstop : stop st = { st with emitting := false, system := some s.stopSys } := by
    simp [stop, hs]
  have h := runUpdates_not_emitting ds (stop st) s.stopSys
    (by rw [hstop]) (by exact hi) (by rw [hstop])
  refine ⟨by rw [hstop], h.1, h.2.1, ?_⟩
  rw [h.2.2]
  simp [sysAges, sysParticles, hstop, Sys.stopSys, hs]

/-- Witness for C6 at `st0` over two half-second frames: no spawn events,
and the single particle ages from 1/2 to 3/2. -/
theorem stop_halts_emission_witness :
    (stop st0).emitting = false ∧
    (runUpdates (stop st0) [1/2, 1/2]).2 = [] ∧
    (runUpdates (stop st0) [1/2, 1/2]).1.emitting = false ∧
    sysAges (runUpdates (stop st0) [1/2, 1/2]).1 =
      (sysAges st0).map (fun a => a + List.sum [1/2, 1/2]) :=
  stop_halts_emission_updates_continue st0 s0 [1/2, 1/2] rfl rfl

/-- Helper: the uniform-level system update never touches the particle
buffer. -/
theorem applySysUpdates_particles (e : Bool) (s : Sys) (nv : NewValues) :
    (applySysUpdates e s nv).1.particles = s.particles := by
  unfold applySysUpdates
  cases hp : nv.position <;> cases hd : nv.delay <;> cases hc : nv.emitCount <;>
    cases hb : nv.blending <;> rcases ha : nv.autoStart with _ | (_ | _) <;>
      simp [Sys.startSys, Sys.stopSys] <;> split <;> rfl

/-- Helper: the uniform-level system update patches the uniforms exactly
through `updateUniformsSubset`. -/
theorem applySysUpdates_uniforms (e : Bool) (s : Sys) (nv : NewValues) :
    (applySysUpdates e s nv).1.uniforms = updateUniformsSubset s.uniforms nv := by
  unfold applySysUpdates
  cases hp : nv.position <;> cases hd : nv.delay <;> cases hc : nv.emitCount <;>
    cases hb : nv.blending <;> rcases ha : nv.autoStart with _ | (_ | _) <;>
      simp [Sys.startSys, Sys.stopSys] <;> split <;> rfl

/-- Helper: `_applyUniformUpdates` preserves the particle buffer (ages and
positions included) of whatever system is present. -/
theorem applyUniformUpdates_particles (st : VFXState) (nv : NewValues) :
    sysParticles (applyUniformUpdates st nv) = sysParticles st ∧
    sysAges (applyUniformUpdates st nv) = sysAges st := by
  unfold sysAges
  cases hs : st.system with
  | none => simp [applyUniformUpdates, hs]
  | some s => simp [applyUniformUpdates, hs, sysParticles, applySysUpdates_particles]

/-- C3: a configuration change that `setProps` classifies as uniform-level
is applied without recreating the system: the particle buffer — every
particle's age and position — is exactly the buffer from before the call. -/
theorem uniform_level_preserves_particles (ok : Bool) (ns : Sys)
    (st : VFXState) (nv : NewValues)
    (h : setPropsAction (mergeConfig st.config nv) (st.system.map Sys.features) nv =
      PropsAction.uniform) :
    sysParticles (setProps ok ns st nv) = sysParticles st ∧
    sysAges (setProps ok ns st nv) = sysAges st := by
  have hset : setProps ok ns st nv =
      applyUniformUpdates { st with config := mergeConfig st.config nv } nv := by
    simp only [setProps, h]
  rw [hset]
  have h2 := applyUniformUpdates_particles { st with config := mergeConfig st.config nv } nv
  simpa [sysParticles, sysAges] using h2

/-- Witness for C3: a gravity-only update on `st0` leaves the particle
buffer untouched. -/
theorem uniform_level_preserves_particles_witness :
    sysParticles (setProps true ns0 st0 nvUniform) = sysParticles st0 ∧
    sysAges (setProps true ns0 st0 nvUniform) = sysAges st0 :=
  uniform_level_preserves_particles true ns0 st0 nvUniform rfl

/-- C8: when the configuration has no `colorEnd` (null/absent), a
`colorStart` update through the uniform-level path propagates so the
colorEnd uniforms mirror the new colorStart stops, and consequently the
life-interpolated color of every stop index holds steady at colorStart
over the whole normalized lifetime. -/
theorem colorStart_update_mirrors_colorEnd (st : VFXState) (s : Sys)
    (nv : NewValues) (cs : List Color)
    (hs : st.system = some s)
    (hcfg : st.config.colorEnd = none)
    (hnv : nv.colorStart = some (some cs))
    (hne : nv.colorEnd = none) :
    ∃ s2, (applyUniformUpdates st nv).system = some s2 ∧
      s2.uniforms.colorStart = cs ∧
      s2.uniforms.colorEnd = cs ∧
      ∀ (i : ℕ) (t : ℚ),
        interpColor (s2.uniforms.colorStart.getD i whiteColor)
            (s2.uniforms.colorEnd.getD i whiteColor) t =
          s2.uniforms.colorStart.getD i whiteColor := by
  have hrw : rewriteColorKeys st.config nv =
      { nv with colorEnd := some none, colorStart := some (some cs) } := by
    unfold rewriteColorKeys
    rw [hnv, hcfg]
  refine ⟨(applySysUpdates st.emitting s (rewriteColorKeys st.config nv)).1,
    by simp [applyUniformUpdates, hs], ?_⟩
  have hu : (applySysUpdates st.emitting s (rewriteColorKeys st.config nv)).1.uniforms =
      updateUniformsSubset s.uniforms
        { nv with colorEnd := some none, colorStart := some (some cs) } := by
    rw [applySysUpdates_uniforms, hrw]
  have hstart : (applySysUpdates st.emitting s (rewriteColorKeys st.config nv)).1.uniforms.colorStart = cs := by
    rw [hu]; simp [updateUniformsSubset]
  have hend : (applySysUpdates st.emitting s (rewriteColorKeys st.config nv)).1.uniforms.colorEnd = cs := by
    rw [hu]; simp [updateUniformsSubset]
  refine ⟨hstart, hend, ?_⟩
  intro i t
  rw [hstart, hend]
  obtain ⟨a, b, c⟩ := cs.getD i whiteColor
  simp [interpColor]

/-- Witness for C8: updating `colorStart` to `#00ff00` on `st0` (whose
config has `colorEnd` null) mirrors the colorEnd uniforms. -/
theorem colorStart_update_mirrors_colorEnd_witness :
    ∃ s2, (applyUniformUpdates st0 nvColor).system = some s2 ∧
      s2.uniforms.colorStart = [(0, 1, 0)] ∧
      s2.uniforms.colorEnd = [(0, 1, 0)] ∧
      ∀ (i : ℕ) (t : ℚ),
        interpColor (s2.uniforms.colorStart.getD i whiteColor)
            (s2.uniforms.colorEnd.getD i whiteColor) t =
          s2.uniforms.colorStart.getD i whiteColor :=
  colorStart_update_mirrors_colorEnd st0 s0 nvColor [(0, 1, 0)] rfl rfl rfl rfl

/-- Helper: the sequential early-return control flow of `setProps` decides
recreation exactly when a structural key is present, a geometry key is
present, or some derived feature flag flips. -/
theorem setPropsAction_recreate_iff (cfg : Config) (ofeat : Option Features)
    (nv : NewValues) :
    setPropsAction cfg ofeat nv = PropsAction.recreate ↔
      (structuralKeyPresent nv = true ∨ geometryKeyPresent nv = true ∨
       featureFlagFlips cfg ofeat nv = true) := by
  unfold setPropsAction featureFlagFlips
  cases h1 : turbFlip ofeat nv <;> cases h2 : attrFlip ofeat nv <;>
    cases h3 : collFlip ofeat nv <;> cases h4 : rotFlip cfg ofeat nv <;>
      cases h5 : colorFlip cfg ofeat nv <;> cases h6 : geometryKeyPresent nv <;>
        cases h7 : structuralKeyPresent nv <;> simp

/-- C1: on an initialized instance, `setProps(newValues)` triggers a
structural recreation if and only if `newValues` contains one of the
structural keys (maxParticles, lighting, appearance, shadow,
orientToDirection), or contains a geometryType/geometryArgs key, or makes
one of the derived feature flags (turbulence, attractors, collision,
needsRotation, needsPerParticleColor) flip value; every other `newValues`
takes the uniform-level path with no recreation. -/
theorem setProps_recreation_iff (ok : Bool) (ns : Sys) (st : VFXState)
    (s : Sys) (nv : NewValues)
    (hs : st.system = some s) (hi : st.initialized = true) :
    (setPropsAction (mergeConfig st.config nv) (some s.features) nv =
        PropsAction.recreate ↔
      (structuralKeyPresent nv = true ∨ geometryKeyPresent nv = true ∨
       featureFlagFlips (mergeConfig st.config nv) (some s.features) nv = true)) ∧
    (setPropsAction (mergeConfig st.config nv) (some s.features) nv =
        PropsAction.uniform →
      setProps ok ns st nv =
        applyUniformUpdates { st with config := mergeConfig st.config nv } nv) := by
  refine ⟨setPropsAction_recreate_iff _ _ _, fun h => ?_⟩
  simp only [setProps, hs, Option.map_some']
  rw [h]

/-- Witness for C1 at `st0` with a new `maxParticles` value: the update is
structural. -/
theorem setProps_recreation_iff_witness :
    (setPropsAction (mergeConfig st0.config nvStruct) (some s0.features) nvStruct =
        PropsAction.recreate ↔
      (structuralKeyPresent nvStruct = true ∨ geometryKeyPresent nvStruct = true ∨
       featureFlagFlips (mergeConfig st0.config nvStruct) (some s0.features)
         nvStruct = true)) ∧
    (setPropsAction (mergeConfig st0.config nvStruct) (some s0.features) nvStruct =
        PropsAction.uniform →
      setProps true ns0 st0 nvStruct =
        applyUniformUpdates { st0 with config := mergeConfig st0.config nvStruct }
          nvStruct) :=
  setProps_recreation_iff true ns0 st0 s0 nvStruct rfl rfl

/-- C4 counterexample: `setProps` tests structural keys by PRESENCE, not
by value change.  Resending the exact configuration already in effect
(`nvFull`, value-identical to `cfg0`, features consistent) still triggers
a structural recreation because `maxParticles` is among the keys. -/
theorem setProps_same_values_recreates_cex :
    mergeConfig cfg0 nvFull = cfg0 ∧
    s0.features = featuresOfConfig cfg0 ∧
    nvFull.maxParticles = some cfg0.maxParticles ∧
    setPropsAction (mergeConfig cfg0 nvFull) (some s0.features) nvFull =
      PropsAction.recreate ∧
    sysParticles (setProps true ns0 st0 nvFull) ≠ sysParticles st0 := by
  refine ⟨rfl, rfl, rfl, rfl, by decide⟩

/-- Helper: `setProps({})` is the identity on the wrapper state. -/
theorem setProps_empty_id (ok : Bool) (ns : Sys) (st : VFXState) :
    setProps ok ns st emptyNV = st := by
  obtain ⟨c, sys, em, acc, dbg, ini, gh, pn, pr⟩ := st
  cases sys <;> rfl

/-- C4 amended: `setProps({})` produces no change at all and triggers no
recreation; reapplying the same configuration values triggers no
structural recreation PROVIDED the resend contains no structural key and
no geometry key (value-identical resends cannot flip a feature flag when
the system's features agree with the config); a resend containing a
structural key, by contrast, is classified structural even though its
value is unchanged (see the counterexample). -/
theorem setProps_empty_noop_and_same_values (ok : Bool) (ns : Sys)
    (st : VFXState) (s : Sys) (nv : NewValues)
    (hs : st.system = some s)
    (hsame : mergeConfig st.config nv = st.config)
    (hfeat : s.features = featuresOfConfig st.config)
    (hstruct : structuralKeyPresent nv = false)
    (hgeom : geometryKeyPresent nv = false) :
    setProps ok ns st emptyNV = st ∧
    setPropsAction (mergeConfig st.config nv) (some s.features) nv =
      PropsAction.uniform := by
  refine ⟨setProps_empty_id ok ns st, ?_⟩
  have hT : turbFlip (some s.features) nv = false := by
    unfold turbFlip
    cases h : nv.turbulence with
    | none => rfl
    | some v =>
      have hv := congrArg Config.turbulence hsame
      simp only [mergeConfig, h, Option.getD_some] at hv
      simp [hv, hfeat, featuresOfConfig]
  have hA : attrFlip (some s.features) nv = false := by
    unfold attrFlip
    cases h : nv.attractors with
    | none => rfl
    | some v =>
      have hv := congrArg Config.attractors hsame
      simp only [mergeConfig, h, Option.getD_some] at hv
      have hproj : (Option.map Features.attractors (some s.features)).getD false =
          (Option.map (fun l => decide (0 < l.length)) st.config.attractors).getD
            false := by
        rw [hfeat]
        rfl
      rw [hproj, ← hv]
      cases v <;> simp
  have hC : collFlip (some s.features) nv = false := by
    unfold collFlip
    cases h : nv.collision with
    | none => rfl
    | some v =>
      have hv := congrArg Config.collision hsame
      simp only [mergeConfig, h, Option.getD_some] at hv
      simp [hv, hfeat, featuresOfConfig]
  have hR : rotFlip (mergeConfig st.config nv) (some s.features) nv = false := by
    unfold rotFlip
    rw [congrArg Config.rotation hsame, congrArg Config.rotationSpeed hsame]
    simp [hfeat, featuresOfConfig]
  have hCol : colorFlip (mergeConfig st.config nv) (some s.features) nv = false := by
    unfold colorFlip
    rw [congrArg Config.colorStart hsame, congrArg Config.colorEnd hsame]
    simp [hfeat, featuresOfConfig]
  simp [setPropsAction, hT, hA, hC, hR, hCol, hgeom, hstruct]

/-- Witness for C4's amended statement: resending the unchanged values
without the structural keys (`nvSame`) is classified uniform-level, and
`setProps({})` leaves `st0` untouched. -/
theorem setProps_empty_noop_and_same_values_witness :
    setProps true ns0 st0 emptyNV = st0 ∧
    setPropsAction (mergeConfig st0.config nvSame) (some s0.features) nvSame =
      PropsAction.uniform :=
  setProps_empty_noop_and_same_values true ns0 st0 s0 nvSame rfl rfl rfl rfl rfl

end ThreeVFX
